import Mathlib

/-!
Shallow embedding of the miq user-management API (Python/FastAPI) core:
rate limiting middleware, transaction boundary, cache read-through,
role gate, credential/token service, and the user directory operations.
Each definition is translated from the corresponding source function.
-/

namespace Miq

/-- Role enumeration from app/database/enums.py: admin = "ADMIN", viewer = "VIEWER". -/
inductive UserRole where
  | admin
  | viewer
deriving DecidableEq, Repr

/-- Enum value string, as serialized by UserResponseModel.enum_to_value. -/
def UserRole.value : UserRole → String
  | .admin => "ADMIN"
  | .viewer => "VIEWER"

/-- fastapi.HTTPException as far as the code uses it: a status code and a detail payload. -/
structure HTTPException where
  status : Nat
  detail : String
deriving DecidableEq, Repr

/-- Python exception kinds that the decorators in app/api/decorators.py distinguish
by their except clauses.  Each carries its message (e.args collapsed to one string). -/
inductive PyExc where
  | valueError (msg : String)
  | typeError (msg : String)
  | integrityError (msg : String)
  | uniqueViolation (msg : String)
  | keyError (msg : String)
  | http (e : HTTPException)
  | other (msg : String)
deriving DecidableEq, Repr

/- ------------------------------------------------------------------
Rate limiter, app/depends/middlewares.py RateLimitingMiddleware.dispatch.
Timestamps are modelled as Nat ticks with datetime.min mapped to 0; the
two datetime.now() reads inside one dispatch are modelled as the single
instant `now`.
------------------------------------------------------------------ -/

/-- Outcome of RateLimitingMiddleware.dispatch: pass the request to call_next,
or short-circuit with the 429 JSONResponse. -/
inductive RateOutcome where
  | admitted
  | rejected429
deriving DecidableEq, Repr

/-- The middleware state self.request_counts: client IP to (request count, last-request time). -/
structure RateState where
  counts : List (String × (Nat × Nat))
deriving DecidableEq, Repr

/-- self.request_counts.get(client_ip, (0, datetime.min)). -/
def RateState.getEntry (s : RateState) (ip : String) : Nat × Nat :=
  match s.counts.find? (fun p => p.1 = ip) with
  | some p => p.2
  | none => (0, 0)

/-- self.request_counts[client_ip] = v  (replace the entry or add it). -/
def RateState.setEntry (s : RateState) (ip : String) (v : Nat × Nat) : RateState :=
  if (s.counts.find? (fun p => p.1 = ip)).isSome then
    ⟨s.counts.map (fun p => if p.1 = ip then (ip, v) else p)⟩
  else
    ⟨s.counts ++ [(ip, v)]⟩

/-- RateLimitingMiddleware.dispatch, parametrized by the settings
RATE_LIMIT_DURATION (dur) and RATE_LIMIT_REQUESTS (ceil):
elapsed = now - last_request; if elapsed > dur the count resets to 1;
otherwise a count at or above the ceiling returns the 429 response
without touching the state, and a smaller count increments; every
non-429 path stores (count, now) and admits the request. -/
def dispatch (dur ceil : Nat) (s : RateState) (ip : String) (now : Nat) :
    RateOutcome × RateState :=
  let e := s.getEntry ip
  let elapsed := now - e.2
  if elapsed > dur then
    (.admitted, s.setEntry ip (1, now))
  else if e.1 ≥ ceil then
    (.rejected429, s)
  else
    (.admitted, s.setEntry ip (e.1 + 1, now))

/-- Fold dispatch over a sequence of request times from one client,
keeping only the evolving middleware state. -/
def dispatchMany (dur ceil : Nat) (s : RateState) (ip : String) (ts : List Nat) : RateState :=
  ts.foldl (fun st t => (dispatch dur ceil st ip t).2) s

/- ------------------------------------------------------------------
Transaction boundary, app/api/decorators.py manage_transaction.
The wrapped unit of work is modelled by its outcome (Except PyExc α);
the calls the wrapper makes on the SQLAlchemy session are recorded as
an event trace.  Note that the wrapper both runs the body inside
`with _session:` (SQLAlchemy Session.__exit__ calls close()) and calls
_session.close() in its finally clause, so close appears in the trace
for the with-block exit and again for the finally.
------------------------------------------------------------------ -/

/-- Session operations that manage_transaction performs. -/
inductive SEv where
  | expungeAll
  | flush
  | commit
  | rollback
  | close
deriving DecidableEq, Repr

/-- manage_transaction: on success expunge_all, flush, commit, return the value
(then the with-exit and the finally each close); on failure the with-exit
closes, the matching except clause maps the exception (rolling back first in
the catch-all branch), and the finally closes again. -/
def manage_transaction {α : Type} (r : Except PyExc α) :
    Except HTTPException α × List SEv :=
  match r with
  | .ok a => (.ok a, [SEv.expungeAll, SEv.flush, SEv.commit, SEv.close, SEv.close])
  | .error (.valueError m) => (.error ⟨422, m⟩, [SEv.close, SEv.close])
  | .error (.typeError m) => (.error ⟨422, m⟩, [SEv.close, SEv.close])
  | .error (.integrityError m) => (.error ⟨409, m⟩, [SEv.close, SEv.close])
  | .error (.uniqueViolation m) => (.error ⟨409, m⟩, [SEv.close, SEv.close])
  | .error (.keyError m) => (.error ⟨400, m⟩, [SEv.close, SEv.close])
  | .error (.http e) => (.error e, [SEv.close, SEv.close])
  | .error (.other m) => (.error ⟨500, m⟩, [SEv.close, SEv.rollback, SEv.close])

/- ------------------------------------------------------------------
User entity, app/database/models/user.py.  UUIDs and datetimes are
modelled as Nat.  Nullable columns are Option-typed.
------------------------------------------------------------------ -/

/-- The users table row. -/
structure UserRow where
  guid : Nat
  first_name : String
  last_name : String
  email : String
  hashed_psw : String
  updated_at : Nat
  created_at : Nat
  role : UserRole
  address : Option String
  poste_code : Option String
  city : Option String
  county : Option String
  country : Option String
  age : Option Nat
  date_of_birth : String
deriving DecidableEq, Repr

/-- Dynamically typed value appearing in a dumped ORM row (keyword arguments
handed to a pydantic constructor). -/
inductive PyVal where
  | uuid (n : Nat)
  | str (s : String)
  | optStr (s : Option String)
  | num (n : Nat)
  | optNum (n : Option Nat)
  | role (r : UserRole)
deriving DecidableEq, Repr

/-- User.dump: one (column name, value) pair per column of the users table,
in declaration order. -/
def UserRow.dump (u : UserRow) : List (String × PyVal) :=
  [("guid", .uuid u.guid),
   ("first_name", .str u.first_name),
   ("last_name", .str u.last_name),
   ("email", .str u.email),
   ("hashed_psw", .str u.hashed_psw),
   ("updated_at", .num u.updated_at),
   ("created_at", .num u.created_at),
   ("role", .role u.role),
   ("address", .optStr u.address),
   ("poste_code", .optStr u.poste_code),
   ("city", .optStr u.city),
   ("county", .optStr u.county),
   ("country", .optStr u.country),
   ("age", .optNum u.age),
   ("date_of_birth", .str u.date_of_birth)]

/-- Keyword lookup in a dumped row. -/
def kwLookup (d : List (String × PyVal)) (k : String) : Option PyVal :=
  match d.find? (fun p => p.1 = k) with
  | some p => some p.2
  | none => none

/- ------------------------------------------------------------------
Response model, app/datamodels/schemas/response.py UserResponseModel.
Required fields (Field(default=...)): guid, name, last_name, email.
Optional with defaults: role (admin), address, poste_code, city, county,
country (None).  There is no alias mapping first_name to name.
------------------------------------------------------------------ -/

/-- UserResponseModel, the external response shape. -/
structure UserResponseModel where
  guid : Nat
  name : String
  last_name : String
  email : String
  role : UserRole
  address : Option String
  poste_code : Option String
  city : Option String
  county : Option String
  country : Option String
deriving DecidableEq, Repr

/-- Pydantic validation of UserResponseModel(**kwargs): every required field
must be supplied (by its own name; the model declares no aliases) with a value
of the right type; optional fields fall back to their declared defaults; extra
keyword arguments are ignored.  A missing required field or a type mismatch
raises pydantic.ValidationError, which is a ValueError subclass. -/
def userResponseModel_validate (d : List (String × PyVal)) :
    Except PyExc UserResponseModel :=
  match kwLookup d "guid", kwLookup d "name", kwLookup d "last_name",
      kwLookup d "email" with
  | some (.uuid g), some (.str n), some (.str l), some (.str e) =>
    let role := match kwLookup d "role" with
      | some (.role r) => r
      | _ => UserRole.admin
    let opt := fun k => match kwLookup d k with
      | some (.optStr s) => s
      | some (.str s) => some s
      | _ => none
    .ok { guid := g, name := n, last_name := l, email := e, role := role,
          address := opt "address", poste_code := opt "poste_code",
          city := opt "city", county := opt "county", country := opt "country" }
  | _, _, _, _ => .error (.valueError "validation error: field required")

/- ------------------------------------------------------------------
Cache gateway, app/api/decorators.py cache_result and the redis client.
The redis store is a list of (key, (ttl, serialized value)).
------------------------------------------------------------------ -/

/-- The redis key/value store as the decorator uses it: setex stores a string
under a key with a TTL; get returns the stored string. -/
structure Cache where
  entries : List (String × (Nat × String))
deriving DecidableEq, Repr

/-- redis.get(name=k). -/
def Cache.get (c : Cache) (k : String) : Option String :=
  match c.entries.find? (fun p => p.1 = k) with
  | some p => some p.2.2
  | none => none

/-- redis.setex(name=k, time=ttl, value=v). -/
def Cache.setex (c : Cache) (k : String) (ttl : Nat) (v : String) : Cache :=
  if (c.entries.find? (fun p => p.1 = k)).isSome then
    ⟨c.entries.map (fun p => if p.1 = k then (k, (ttl, v)) else p)⟩
  else
    ⟨c.entries ++ [(k, (ttl, v))]⟩

/-- json.dumps over the projected list: a concrete injective rendering of the
serialized payload (the exact JSON text is a library concern; only the fact
that a definite string is stored matters to the wrapper). -/
def dumpsUsers (ms : List UserResponseModel) : String :=
  "[" ++ String.intercalate ","
    (ms.map (fun m =>
      String.intercalate "|"
        [toString m.guid, m.name, m.last_name, m.email, m.role.value,
         m.address.getD "", m.poste_code.getD "", m.city.getD "",
         m.county.getD "", m.country.getD ""])) ++ "]"

/-- The query-parameter multimap of a fastapi Request, restricted to
first-value lookup as request.query_params.get uses it. -/
structure ReqQuery where
  params : List (String × String)
deriving DecidableEq, Repr

/-- request.query_params.get(k, default=d). -/
def ReqQuery.getD (q : ReqQuery) (k d : String) : String :=
  match q.params.find? (fun p => p.1 = k) with
  | some p => p.2
  | none => d

/-- Cache key derivation in cache_result: when kwargs contain a request, the
key becomes {key}_offset_{offset}_limit_{limit} with offset and limit read
from the query string (defaults 0 and 100); otherwise the base key stands. -/
def cacheKeyOf (key : String) (requestArg : Option ReqQuery) : String :=
  match requestArg with
  | some q =>
    key ++ "_offset_" ++ q.getD "offset" "0" ++ "_limit_" ++ q.getD "limit" "100"
  | none => key

/-- Value returned by the cache_result wrapper: on a hit, the deserialized
cached payload (json.loads of the stored string); on a miss, the freshly
projected pydantic models. -/
inductive CacheHitOrModels where
  | fromCache (s : String)
  | computed (ms : List UserResponseModel)
deriving DecidableEq, Repr

/-- Left-to-right projection of every ORM row, stopping at the first
pydantic validation failure, as the list comprehension does. -/
def projectUsers : List UserRow → Except PyExc (List UserResponseModel)
  | [] => .ok []
  | u :: us =>
    match userResponseModel_validate u.dump with
    | .ok m =>
      match projectUsers us with
      | .ok ms => .ok (m :: ms)
      | .error e => .error e
    | .error e => .error e

/-- cache_result(key, ttl) wrapper body: derive the cache key, return the
deserialized payload on a hit; on a miss run the wrapped function, project its
rows to UserResponseModel, serialize and setex, and return the models.
HTTPException escapes unchanged; any other exception (a pydantic
ValidationError from the projection included) is mapped to HTTP 500. -/
def cache_result (key : String) (ttl : Nat) (requestArg : Option ReqQuery)
    (cache : Cache) (func_result : Except PyExc (List UserRow)) :
    Except HTTPException CacheHitOrModels × Cache :=
  let cache_key := cacheKeyOf key requestArg
  match cache.get cache_key with
  | some cached => (.ok (.fromCache cached), cache)
  | none =>
    match func_result with
    | .error (.http e) => (.error e, cache)
    | .error (.valueError m) => (.error ⟨500, m⟩, cache)
    | .error (.typeError m) => (.error ⟨500, m⟩, cache)
    | .error (.integrityError m) => (.error ⟨500, m⟩, cache)
    | .error (.uniqueViolation m) => (.error ⟨500, m⟩, cache)
    | .error (.keyError m) => (.error ⟨500, m⟩, cache)
    | .error (.other m) => (.error ⟨500, m⟩, cache)
    | .ok rows =>
      match projectUsers rows with
      | .ok ms => (.ok (.computed ms), cache.setex cache_key ttl (dumpsUsers ms))
      | .error (.valueError m) => (.error ⟨500, m⟩, cache)
      | .error (.typeError m) => (.error ⟨500, m⟩, cache)
      | .error (.integrityError m) => (.error ⟨500, m⟩, cache)
      | .error (.uniqueViolation m) => (.error ⟨500, m⟩, cache)
      | .error (.keyError m) => (.error ⟨500, m⟩, cache)
      | .error (.other m) => (.error ⟨500, m⟩, cache)
      | .error (.http e) => (.error e, cache)

/- ------------------------------------------------------------------
crud.find_users, corefuncs.get_users, and the GET /users route wiring
in app/api/routers/user.py.
------------------------------------------------------------------ -/

/-- crud.find_users: query(User).offset(offset).limit(limit).all(), over the
table rows in order. -/
def find_users (db : List UserRow) (offset limit : Nat) : List UserRow :=
  (db.drop offset).take limit

/-- corefuncs.get_users(session, offset=0, limit=100) as the router invokes
it: the endpoint body passes only the session, so the defaults apply. -/
def corefuncs_get_users (db : List UserRow) : Except PyExc (List UserRow) :=
  .ok (find_users db 0 100)

/-- GET /users endpoint as wired: FastAPI builds the wrapper call from the
endpoint signature (session_user, session) in app/api/routers/user.py, which
declares no Request parameter, so kwargs.get("request") in cache_result is
None for every inbound request whatever its query string; the query
parameters qp of the inbound request therefore never reach the decorator. -/
def get_users_route (db : List UserRow) (cache : Cache) (_qp : ReqQuery) :
    Except HTTPException CacheHitOrModels × Cache :=
  cache_result "users" 3600 none cache (corefuncs_get_users db)

/- ------------------------------------------------------------------
Role gate, app/api/decorators.py role_checker, and the allow-lists that
app/api/routers/user.py passes for each endpoint.
------------------------------------------------------------------ -/

/-- role_checker(role_levels) wrapper body: when kwargs carry a session_user
whose role is not among the allowed levels, raise HTTPException 401 before
calling the wrapped function; otherwise the wrapped function runs and its
outcome (exceptions included) passes through unchanged. -/
def role_checker {α : Type} (role_levels : List UserRole)
    (session_user : Option UserRow) (inner : Except PyExc α) : Except PyExc α :=
  match session_user with
  | some u => if u.role ∈ role_levels then inner else .error (.http ⟨401, "Not authorized"⟩)
  | none => inner

/-- Allow-list of GET /users. -/
def get_users_roles : List UserRole := [UserRole.admin, UserRole.viewer]

/-- Allow-list of PATCH /users/guid. -/
def update_user_roles : List UserRole := [UserRole.admin]

/-- Allow-list of DELETE /users/guid. -/
def delete_user_roles : List UserRole := [UserRole.admin]

/- ------------------------------------------------------------------
Update form, app/datamodels/schemas/request.py UserRequestBaseModel, and
corefuncs.update_user.
------------------------------------------------------------------ -/

/-- UserRequestBaseModel: the update form after pydantic validation.  All six
fields carry defaults, so model_dump() always yields all six. -/
structure UserRequestBaseModel where
  address : Option String
  poste_code : Option String
  city : Option String
  county : Option String
  country : Option String
  role : UserRole
deriving DecidableEq, Repr

/-- Construction of UserRequestBaseModel from a request body: each argument is
some v when the client supplied the field (possibly null for the Option-typed
ones) and none when omitted, in which case the declared default applies:
address and poste_code None, city "Nottingham", county "Nottinghamshire",
country "United Kingdom", role admin. -/
def buildUserRequestBaseModel
    (address poste_code city county country : Option (Option String))
    (role : Option UserRole) : UserRequestBaseModel :=
  { address := address.getD none,
    poste_code := poste_code.getD none,
    city := city.getD (some "Nottingham"),
    county := county.getD (some "Nottinghamshire"),
    country := country.getD (some "United Kingdom"),
    role := role.getD UserRole.admin }

/-- corefuncs.update_user: one_or_none lookup by guid under a row lock; 404
when absent; otherwise setattr of every (field, value) pair of
user_form.model_dump() onto the row, persist, and return the updated user
together with the updated table. -/
def update_user (db : List UserRow) (guid : Nat) (form : UserRequestBaseModel) :
    Except HTTPException (UserRow × List UserRow) :=
  match db.find? (fun u => u.guid = guid) with
  | none => .error ⟨404, "User with given guid not found"⟩
  | some u =>
    let u2 : UserRow :=
      { u with address := form.address, poste_code := form.poste_code,
               city := form.city, county := form.county,
               country := form.country, role := form.role }
    .ok (u2, db.map (fun v => if v.guid = guid then u2 else v))

/- ------------------------------------------------------------------
Password validator, app/datamodels/schemas/request.py
UserRequestModel.validate_psw.  re.match of the two-way anchored
pattern with four lookaheads over a restricted character class
repeated at least 8 times.  Python re semantics of the dollar anchor
(without MULTILINE): it matches at the end of the string and also just
before one newline that ends the string, so the characters the class
must cover are the whole string minus a single trailing newline when
one is present; the lookaheads search with a dot that does not cross a
newline, which over such a match region coincides with searching the
region itself.
------------------------------------------------------------------ -/

/-- The payload that login_for_access_token passes to create_auth_token:
sub (the subject email) and user_guid (str of the user UUID). -/
structure TokenClaims where
  sub : String
  user_guid : String
deriving DecidableEq, Repr

/-- An encoded JWT under the ideal-signature model. -/
structure SignedToken where
  claims : TokenClaims
  exp : Nat
  key : String
deriving DecidableEq, Repr

/-- DecodedCredentials, app/datamodels/schemas/auth.py: sub as email,
user_guid and exp of the decoded payload. -/
structure DecodedCredentials where
  email : String
  user_guid : String
  exp : Nat
deriving DecidableEq, Repr

/-- jwt.encode(claims, key, algorithm): pair the payload with the key. -/
def jwt_encode (c : TokenClaims) (exp : Nat) (key : String) : SignedToken :=
  { claims := c, exp := exp, key := key }

/-- jwt.decode(token, key, algorithms): signature and expiry check; a wrong
key or an elapsed expiry raises JWTError (ExpiredSignatureError included). -/
def jwt_decode (t : SignedToken) (key : String) (now : Nat) :
    Except PyExc DecodedCredentials :=
  if t.key = key ∧ now < t.exp then
    .ok { email := t.claims.sub, user_guid := t.claims.user_guid, exp := t.exp }
  else
    .error (.other "JWTError")

/-- create_auth_token(data, expires_delta): expiry is now + expires_delta when
a truthy delta is given (timedelta(0) is falsy in Python, so a zero delta
falls back like an absent one) and now + 15 minutes otherwise; the payload
plus exp is signed with settings.SECRET_KEY, here the parameter secret. -/
def create_auth_token (data : TokenClaims) (expires_delta : Option Nat)
    (now : Nat) (secret : String) : SignedToken :=
  let expire : Nat :=
    match expires_delta with
    | some d => if d = 0 then now + 15 * 60 else now + d
    | none => now + 15 * 60
  jwt_encode data expire secret

/-- verify_token(token): decode with the configured secret; any JWTError is
mapped to HTTPException 401 with the invalid-or-expired detail. -/
def verify_token (t : SignedToken) (secret : String) (now : Nat) :
    Except HTTPException DecodedCredentials :=
  match jwt_decode t secret now with
  | .ok d => .ok d
  | .error _ => .error ⟨401, "Invalid or expired token"⟩

/-- The token that login_for_access_token issues for an authenticated user:
claims sub = email and user_guid = str(guid), with expires_delta =
timedelta(seconds=settings.ACCESS_TOKEN_EXPIRE_SECONDS), here ttl. -/
def login_token (email guid : String) (ttl : Nat) (now : Nat)
    (secret : String) : SignedToken :=
  create_auth_token { sub := email, user_guid := guid } (some ttl) now secret

/- ------------------------------------------------------------------
Helper lemmas about the association-list dictionaries.
------------------------------------------------------------------ -/

/-- Replacing the value stored under a key makes find? return the new pair
whenever the key was present, and still fail whenever it was absent. -/
theorem find_replace {β : Type} (l : List (String × β)) (ip : String) (v : β) :
    (l.map (fun p => if p.1 = ip then (ip, v) else p)).find? (fun p => p.1 = ip) =
      if (l.find? (fun p => p.1 = ip)).isSome then some (ip, v) else none := by
  induction l with
  | nil => simp
  | cons a l ih =>
    by_cases h : a.1 = ip
    · rw [List.map_cons, if_pos h, List.find?_cons_of_pos _ (by simp),
        List.find?_cons_of_pos _ (by simpa using h)]
      simp
    · rw [List.map_cons, if_neg h, List.find?_cons_of_neg _ (by simpa using h),
        List.find?_cons_of_neg _ (by simpa using h), ih]

/-- Appending a binding for an absent key makes find? return it. -/
theorem find_append_none {β : Type} (l : List (String × β)) (ip : String) (v : β)
    (h : l.find? (fun p => p.1 = ip) = none) :
    (l ++ [(ip, v)]).find? (fun p => p.1 = ip) = some (ip, v) := by
  induction l with
  | nil => rw [List.nil_append, List.find?_cons_of_pos _ (by simp)]
  | cons a l ih =>
    have ha : ¬ (a.1 = ip) := by
      intro hc
      rw [List.find?_cons_of_pos _ (by simpa using hc)] at h
      exact Option.noConfusion h
    rw [List.find?_cons_of_neg _ (by simpa using ha)] at h
    rw [List.cons_append, List.find?_cons_of_neg _ (by simpa using ha)]
    exact ih h

/-- Writing an entry and reading it back yields the written value. -/
theorem RateState.getEntry_setEntry (s : RateState) (ip : String) (v : Nat × Nat) :
    (s.setEntry ip v).getEntry ip = v := by
  unfold RateState.setEntry
  by_cases h : (s.counts.find? (fun p => p.1 = ip)).isSome
  · rw [if_pos h]
    unfold RateState.getEntry
    rw [show (⟨s.counts.map fun p => if p.1 = ip then (ip, v) else p⟩ : RateState).counts
        = s.counts.map (fun p => if p.1 = ip then (ip, v) else p) from rfl,
      find_replace, if_pos h]
  · rw [if_neg h]
    unfold RateState.getEntry
    rw [show (⟨s.counts ++ [(ip, v)]⟩ : RateState).counts = s.counts ++ [(ip, v)] from rfl,
      find_append_none _ _ _ (Option.not_isSome_iff_eq_none.mp h)]

/-- A dispatch that returns the 429 response leaves the middleware state
exactly as it was. -/
theorem dispatch_reject_frame (dur ceil : Nat) (s : RateState) (ip : String) (t : Nat)
    (h : (dispatch dur ceil s ip t).1 = .rejected429) :
    (dispatch dur ceil s ip t).2 = s := by
  by_cases h1 : dur < t - (s.getEntry ip).2
  · simp [dispatch, h1] at h
  · by_cases h2 : ceil ≤ (s.getEntry ip).1
    · simp [dispatch, h1, h2]
    · simp [dispatch, h1, h2] at h

/-- A run of requests every one of which is rejected leaves the middleware
state exactly as it started. -/
theorem dispatchMany_rejected_frame (dur ceil : Nat) (ip : String) :
    ∀ (ts : List Nat) (s : RateState),
      (∀ t ∈ ts, (dispatch dur ceil s ip t).1 = .rejected429) →
      dispatchMany dur ceil s ip ts = s := by
  intro ts
  induction ts with
  | nil => intro s _; rfl
  | cons t ts ih =>
    intro s hrej
    have h1 : (dispatch dur ceil s ip t).2 = s :=
      dispatch_reject_frame _ _ _ _ _ (hrej t (List.mem_cons_self _ _))
    simp only [dispatchMany, List.foldl_cons]
    rw [h1]
    exact ih s (fun u hu => hrej u (List.mem_cons_of_mem _ hu))

/-- C1, counterexample: the claim says the client's last-seen timestamp is
updated to now in every case, admitted or rejected; with a window of 60, a
ceiling of 10, a client whose entry is (10, 100) and a request at time 130,
the request is rejected, the state is returned untouched, and the stored
timestamp stays 100 instead of becoming 130. -/
theorem rate_limiter_reject_keeps_timestamp_cex :
    dispatch 60 10 ⟨[("client", (10, 100))]⟩ "client" 130
      = (RateOutcome.rejected429, ⟨[("client", (10, 100))]⟩) ∧
    ¬ (((dispatch 60 10 ⟨[("client", (10, 100))]⟩ "client" 130).2.getEntry
        "client").2 = 130) := by
  constructor
  · decide
  · decide

/-- C1 (amended): on each request the middleware compares the elapsed time
since the client's last recorded request with the window; beyond the window
it admits and resets the entry to count 1; within the window it rejects with
429 when the count has reached the ceiling, leaving the entry untouched, and
otherwise admits with the count incremented; the last-seen timestamp becomes
now on every admitted request (not on rejected ones). -/
theorem rate_limiter_dispatch_behavior (dur ceil : Nat) (s : RateState) (ip : String)
    (now : Nat) :
    (dur < now - (s.getEntry ip).2 →
      dispatch dur ceil s ip now = (.admitted, s.setEntry ip (1, now))) ∧
    (now - (s.getEntry ip).2 ≤ dur → ceil ≤ (s.getEntry ip).1 →
      dispatch dur ceil s ip now = (.rejected429, s)) ∧
    (now - (s.getEntry ip).2 ≤ dur → (s.getEntry ip).1 < ceil →
      dispatch dur ceil s ip now
        = (.admitted, s.setEntry ip ((s.getEntry ip).1 + 1, now))) ∧
    ((dispatch dur ceil s ip now).1 = .admitted →
      ((dispatch dur ceil s ip now).2.getEntry ip).2 = now) := by
  by_cases h1 : dur < now - (s.getEntry ip).2
  · have hd : dispatch dur ceil s ip now = (.admitted, s.setEntry ip (1, now)) := by
      simp [dispatch, h1]
    refine ⟨fun _ => hd, fun h => absurd h1 (not_lt.mpr h),
      fun h => absurd h1 (not_lt.mpr h), fun _ => ?_⟩
    rw [hd, RateState.getEntry_setEntry]
  · by_cases h2 : ceil ≤ (s.getEntry ip).1
    · have hd : dispatch dur ceil s ip now = (.rejected429, s) := by
        simp [dispatch, h1, h2]
      refine ⟨fun h => absurd h h1, fun _ _ => hd,
        fun _ hlt => absurd h2 (not_le.mpr hlt), fun ha => ?_⟩
      rw [hd] at ha
      exact absurd ha (by simp)
    · have hd : dispatch dur ceil s ip now
          = (.admitted, s.setEntry ip ((s.getEntry ip).1 + 1, now)) := by
        simp [dispatch, h1, h2]
      refine ⟨fun h => absurd h h1, fun _ hc => absurd hc h2, fun _ _ => hd,
        fun _ => ?_⟩
      rw [hd, RateState.getEntry_setEntry]

/-- C1 witness: with window 60 and ceiling 10, a client entry (3, 100) and a
request at 130 falls in the within-window, below-ceiling branch. -/
theorem rate_limiter_dispatch_behavior_witness :
    dispatch 60 10 ⟨[("client", (3, 100))]⟩ "client" 130
      = (RateOutcome.admitted, RateState.setEntry ⟨[("client", (3, 100))]⟩ "client" (4, 130)) :=
  (rate_limiter_dispatch_behavior 60 10 ⟨[("client", (3, 100))]⟩ "client" 130).2.2.1
    (by decide) (by decide)

/-- C10: a rejected request leaves the client's stored (count, last-seen)
entry and the whole middleware state unchanged; hence after any run of
rejections the state still carries the last admitted request's data, and a
request whose distance from that last counted timestamp exceeds the window
is admitted, no matter how many rejections happened in between. -/
theorem rate_limiter_rejected_requests_frame (dur ceil : Nat) (s : RateState)
    (ip : String) (ts : List Nat) (now : Nat)
    (hrej : ∀ t ∈ ts, (dispatch dur ceil s ip t).1 = .rejected429)
    (hwin : dur < now - (s.getEntry ip).2) :
    (∀ (s2 : RateState) (t : Nat), (dispatch dur ceil s2 ip t).1 = .rejected429 →
        (dispatch dur ceil s2 ip t).2 = s2) ∧
    dispatchMany dur ceil s ip ts = s ∧
    (dispatch dur ceil (dispatchMany dur ceil s ip ts) ip now).1 = .admitted := by
  have hm := dispatchMany_rejected_frame dur ceil ip ts s hrej
  refine ⟨fun s2 t h => dispatch_reject_frame _ _ _ _ _ h, hm, ?_⟩
  rw [hm]
  simp [dispatch, hwin]

/-- C10 witness: window 60, ceiling 2, entry (2, 100); the requests at 110,
120 and 130 are all rejected, the state is unchanged by them, and the request
at 161 (elapsed 61 from the last admitted request) is admitted. -/
theorem rate_limiter_rejected_requests_frame_witness :
    dispatchMany 60 2 ⟨[("client", (2, 100))]⟩ "client" [110, 120, 130]
        = ⟨[("client", (2, 100))]⟩ ∧
    (dispatch 60 2 (dispatchMany 60 2 ⟨[("client", (2, 100))]⟩ "client"
        [110, 120, 130]) "client" 161).1 = .admitted :=
  ⟨(rate_limiter_rejected_requests_frame 60 2 ⟨[("client", (2, 100))]⟩ "client"
      [110, 120, 130] 161 (by decide) (by decide)).2.1,
   (rate_limiter_rejected_requests_frame 60 2 ⟨[("client", (2, 100))]⟩ "client"
      [110, 120, 130] 161 (by decide) (by decide)).2.2⟩

/-- C3: the transaction boundary maps every failure of the unit of work to
exactly one externally visible error — ValueError and TypeError to 422,
IntegrityError and UniqueViolation to 409, KeyError to 400, an HTTPException
passes through unchanged, anything else becomes 500 — and the rollback call
appears in the session trace exactly for the catch-all 500 branch. -/
theorem manage_transaction_error_mapping {α : Type} (a : α) (m : String)
    (he : HTTPException) :
    (manage_transaction (Except.ok a)).1 = .ok a ∧
    (@manage_transaction α (.error (.valueError m))).1 = .error ⟨422, m⟩ ∧
    (@manage_transaction α (.error (.typeError m))).1 = .error ⟨422, m⟩ ∧
    (@manage_transaction α (.error (.integrityError m))).1 = .error ⟨409, m⟩ ∧
    (@manage_transaction α (.error (.uniqueViolation m))).1 = .error ⟨409, m⟩ ∧
    (@manage_transaction α (.error (.keyError m))).1 = .error ⟨400, m⟩ ∧
    (@manage_transaction α (.error (.http he))).1 = .error he ∧
    (@manage_transaction α (.error (.other m))).1 = .error ⟨500, m⟩ ∧
    (∀ r : Except PyExc α,
      SEv.rollback ∈ (manage_transaction r).2 ↔ ∃ m2, r = .error (.other m2)) := by
  refine ⟨rfl, rfl, rfl, rfl, rfl, rfl, rfl, rfl, ?_⟩
  intro r
  match r with
  | .ok a2 => simp [manage_transaction]
  | .error (.valueError m2) => simp [manage_transaction]
  | .error (.typeError m2) => simp [manage_transaction]
  | .error (.integrityError m2) => simp [manage_transaction]
  | .error (.uniqueViolation m2) => simp [manage_transaction]
  | .error (.keyError m2) => simp [manage_transaction]
  | .error (.http e2) => simp [manage_transaction]
  | .error (.other m2) => simp [manage_transaction]

/-- C3 witness: the catch-all branch at a concrete failure yields 500 and the
trace contains the rollback. -/
theorem manage_transaction_error_mapping_witness :
    (@manage_transaction Nat (.error (.other "boom"))).1 = .error ⟨500, "boom"⟩ ∧
    SEv.rollback ∈ (@manage_transaction Nat (.error (.other "boom"))).2 :=
  ⟨(manage_transaction_error_mapping (0 : Nat) "boom" ⟨418, "teapot"⟩).2.2.2.2.2.2.2.1,
   ((manage_transaction_error_mapping (0 : Nat) "boom" ⟨418, "teapot"⟩).2.2.2.2.2.2.2.2
      (.error (.other "boom"))).mpr ⟨"boom", rfl⟩⟩

/-- C4, counterexample: the claim says the session is closed exactly once on
every path; on the successful path the close call appears twice in the
session trace — the with-statement exit closes and the finally clause closes
again — so it is not closed exactly once. -/
theorem manage_transaction_close_twice_cex :
    (@manage_transaction Nat (Except.ok 0)).2.count SEv.close = 2 ∧
    ¬ ((@manage_transaction Nat (Except.ok 0)).2.count SEv.close = 1) := by
  constructor
  · decide
  · decide

/-- C4 (amended): on every outcome path the session ends closed and the final
session operation is a close, but close is invoked twice — once when the
with-block exits and once in the finally clause — the second call being an
idempotent no-op on an already-closed session, rather than exactly once. -/
theorem manage_transaction_always_closes {α : Type} (r : Except PyExc α) :
    (manage_transaction r).2.count SEv.close = 2 ∧
    (manage_transaction r).2.getLast? = some SEv.close := by
  match r with
  | .ok a2 => exact ⟨rfl, rfl⟩
  | .error (.valueError m2) => exact ⟨rfl, rfl⟩
  | .error (.typeError m2) => exact ⟨rfl, rfl⟩
  | .error (.integrityError m2) => exact ⟨rfl, rfl⟩
  | .error (.uniqueViolation m2) => exact ⟨rfl, rfl⟩
  | .error (.keyError m2) => exact ⟨rfl, rfl⟩
  | .error (.http e2) => exact ⟨rfl, rfl⟩
  | .error (.other m2) => exact ⟨rfl, rfl⟩

/-- A concrete stored user row, field values as in the repository's mocks. -/
def mockUser : UserRow :=
  { guid := 7, first_name := "mock", last_name := "mock", email := "mock@one.com",
    hashed_psw := "hp", updated_at := 0, created_at := 0, role := .admin,
    address := none, poste_code := none, city := some "Nottingham",
    county := some "Nottinghamshire", country := some "United Kingdom",
    age := some 32, date_of_birth := "01/01/1991" }

/-- A family of distinct rows for pagination experiments. -/
def mkRow (n : Nat) : UserRow :=
  { mockUser with guid := n }

/-- Seven stored rows. -/
def mock7 : List UserRow := (List.range 7).map mkRow

/-- The dumped columns of any user row carry no binding for the key "name",
so pydantic validation of UserResponseModel over the dump always fails on the
required field name. -/
theorem userResponseModel_validate_dump (u : UserRow) :
    userResponseModel_validate u.dump
      = .error (.valueError "validation error: field required") := by
  have hname : kwLookup u.dump "name" = none := by
    simp [UserRow.dump, kwLookup, List.find?]
  unfold userResponseModel_validate
  rw [hname]
  have hguid : kwLookup u.dump "guid" = some (.uuid u.guid) := by
    simp [UserRow.dump, kwLookup, List.find?]
  rw [hguid]

/-- C5: the claim describes the cache-miss path projecting each fetched user
into the response shape and caching the serialized list; in the code the
projection always fails on any non-empty result — UserResponseModel requires
the field name, User.dump supplies first_name and no alias bridges them — so
the wrapper raises HTTP 500 and stores nothing, as evaluated here on a
one-user table with an empty cache. -/
theorem cache_miss_projection_fails :
    (∀ u : UserRow, userResponseModel_validate u.dump
        = .error (.valueError "validation error: field required")) ∧
    cache_result "users" 3600 none ⟨[]⟩ (.ok [mockUser])
      = (.error ⟨500, "validation error: field required"⟩, ⟨[]⟩) := by
  exact ⟨userResponseModel_validate_dump, rfl⟩

/-- C2: the GET /users endpoint declares no Request parameter, so the
cache_result wrapper never sees the inbound query string: the route's outcome
is the same whatever offset and limit the caller supplies, a paginated
request with offset=5 and limit=10 stores its result under the bare key
"users" and not under "users_offset_5_limit_10" (the key the decorator
would derive had the request reached it), and the rows are fetched with the
defaults offset 0 and limit 100, which on a seven-row table yields all seven
rows where offset 5, limit 10 would yield two. -/
theorem get_users_route_ignores_pagination :
    (∀ (db : List UserRow) (cache : Cache) (qp : ReqQuery),
      get_users_route db cache qp = get_users_route db cache ⟨[]⟩) ∧
    cacheKeyOf "users" (some ⟨[("offset", "5"), ("limit", "10")]⟩)
      = "users_offset_5_limit_10" ∧
    (get_users_route [] ⟨[]⟩ ⟨[("offset", "5"), ("limit", "10")]⟩).2.get
      "users_offset_5_limit_10" = none ∧
    (get_users_route [] ⟨[]⟩ ⟨[("offset", "5"), ("limit", "10")]⟩).2.get "users"
      = some (dumpsUsers []) ∧
    (find_users mock7 0 100).length = 7 ∧
    (find_users mock7 5 10).length = 2 := by
  refine ⟨fun db cache qp => rfl, ?_, ?_, ?_, ?_, ?_⟩
  · rfl
  · decide
  · decide
  · decide
  · decide

/-- C6: the role gate rejects with HTTP 401 exactly when a principal is
present whose role is outside the allow-list, lets a present allowed
principal and an absent principal through to the wrapped operation
unchanged, and on the concrete routes a viewer hitting the update or delete
allow-list is rejected while a viewer or admin hitting the list allow-list
passes. -/
theorem role_checker_gate {α : Type} (inner : Except PyExc α) :
    (∀ (levels : List UserRole) (v : UserRow), v.role ∉ levels →
      role_checker levels (some v) inner = .error (.http ⟨401, "Not authorized"⟩)) ∧
    (∀ (levels : List UserRole) (v : UserRow), v.role ∈ levels →
      role_checker levels (some v) inner = inner) ∧
    (∀ levels : List UserRole, role_checker levels none inner = inner) ∧
    (∀ v : UserRow, v.role = .viewer →
      role_checker update_user_roles (some v) inner
          = .error (.http ⟨401, "Not authorized"⟩) ∧
      role_checker delete_user_roles (some v) inner
          = .error (.http ⟨401, "Not authorized"⟩)) ∧
    (∀ v : UserRow, v.role = .viewer ∨ v.role = .admin →
      role_checker get_users_roles (some v) inner = inner) := by
  refine ⟨?_, ?_, fun levels => rfl, ?_, ?_⟩
  · intro levels v hv
    simp [role_checker, hv]
  · intro levels v hv
    simp [role_checker, hv]
  · intro v hv
    constructor
    · simp [role_checker, update_user_roles, hv]
    · simp [role_checker, delete_user_roles, hv]
  · intro v hv
    rcases hv with hv | hv <;> simp [role_checker, get_users_roles, hv]

/-- A viewer principal, concrete instance for the role gate. -/
def viewerUser : UserRow := { mockUser with role := .viewer }

/-- C6 witness: the viewer is rejected on the update allow-list and passes
the list allow-list. -/
theorem role_checker_gate_witness :
    role_checker update_user_roles (some viewerUser) (Except.ok (0 : Nat))
        = .error (.http ⟨401, "Not authorized"⟩) ∧
    role_checker get_users_roles (some viewerUser) (Except.ok (0 : Nat))
        = .ok 0 :=
  ⟨((role_checker_gate (Except.ok 0)).2.2.2.1 viewerUser rfl).1,
   (role_checker_gate (Except.ok 0)).2.2.2.2 viewerUser (Or.inl rfl)⟩

/-- C7: verifying a token issued at login with a positive configured TTL
returns exactly the subject email and user id it was issued with, the
embedded expiry is the issuance time plus that TTL (and 15 minutes when no
delta is supplied), verification of the same token at or past its expiry
fails with HTTP 401, and so does verification of any token whose signing key
differs from the configured secret (a forged or tampered token). -/
theorem token_roundtrip (email guid secret : String) (ttl now now2 : Nat)
    (httl : 0 < ttl) :
    (login_token email guid ttl now secret).exp = now + ttl ∧
    (now2 < now + ttl →
      verify_token (login_token email guid ttl now secret) secret now2
        = .ok ⟨email, guid, now + ttl⟩) ∧
    (now + ttl ≤ now2 →
      verify_token (login_token email guid ttl now secret) secret now2
        = .error ⟨401, "Invalid or expired token"⟩) ∧
    (∀ t : SignedToken, t.key ≠ secret →
      verify_token t secret now2 = .error ⟨401, "Invalid or expired token"⟩) ∧
    (create_auth_token ⟨email, guid⟩ none now secret).exp = now + 15 * 60 := by
  have hne : ¬ ttl = 0 := Nat.pos_iff_ne_zero.mp httl
  have hexp : (login_token email guid ttl now secret).exp = now + ttl := by
    simp [login_token, create_auth_token, jwt_encode, hne]
  refine ⟨hexp, ?_, ?_, ?_, rfl⟩
  · intro hlt
    simp [verify_token, jwt_decode, login_token, create_auth_token, jwt_encode, hne, hlt]
  · intro hge
    simp [verify_token, jwt_decode, login_token, create_auth_token, jwt_encode, hne,
      Nat.not_lt.mpr hge]
  · intro t ht
    simp [verify_token, jwt_decode, ht]

/-- C7 witness: a token issued at time 0 with TTL 900 verifies at time 100 to
the original claims, and no longer verifies at time 900. -/
theorem token_roundtrip_witness :
    verify_token (login_token "mock@one.com" "7" 900 0 "secret") "secret" 100
        = .ok ⟨"mock@one.com", "7", 900⟩ ∧
    verify_token (login_token "mock@one.com" "7" 900 0 "secret") "secret" 900
        = .error ⟨401, "Invalid or expired token"⟩ :=
  ⟨by
    have h := (token_roundtrip "mock@one.com" "7" "secret" 900 0 100 (by decide)).2.1
      (by decide)
    simpa using h,
   by
    have h := (token_roundtrip "mock@one.com" "7" "secret" 900 0 900
      (by decide)).2.2.1 (by decide)
    simpa using h⟩

/-- C8: update looks the row up by guid and fails 404 when it is absent; when
present, every one of the six update-form fields is written onto the row —
fields the client omitted having already fallen back to the hardcoded form
defaults (address and poste_code None, city Nottingham, county
Nottinghamshire, country United Kingdom, role admin) — the identity columns
stay untouched, and the updated user is returned. -/
theorem update_user_overwrites (db : List UserRow) (guid : Nat)
    (form : UserRequestBaseModel) :
    (db.find? (fun u => u.guid = guid) = none →
      update_user db guid form = .error ⟨404, "User with given guid not found"⟩) ∧
    (∀ u : UserRow, db.find? (fun u2 => u2.guid = guid) = some u →
      ∃ u2 : UserRow,
        update_user db guid form
          = .ok (u2, db.map (fun v => if v.guid = guid then u2 else v)) ∧
        u2.address = form.address ∧ u2.poste_code = form.poste_code ∧
        u2.city = form.city ∧ u2.county = form.county ∧
        u2.country = form.country ∧ u2.role = form.role ∧
        u2.guid = u.guid ∧ u2.first_name = u.first_name ∧
        u2.last_name = u.last_name ∧ u2.email = u.email ∧
        u2.hashed_psw = u.hashed_psw ∧ u2.age = u.age ∧
        u2.date_of_birth = u.date_of_birth) ∧
    buildUserRequestBaseModel none none none none none none
      = { address := none, poste_code := none, city := some "Nottingham",
          county := some "Nottinghamshire", country := some "United Kingdom",
          role := .admin } := by
  refine ⟨?_, ?_, rfl⟩
  · intro hnone
    unfold update_user
    rw [hnone]
  · intro u hu
    refine ⟨{ u with address := form.address, poste_code := form.poste_code,
                     city := form.city, county := form.county,
                     country := form.country, role := form.role }, ?_,
      rfl, rfl, rfl, rfl, rfl, rfl, rfl, rfl, rfl, rfl, rfl, rfl, rfl⟩
    unfold update_user
    rw [hu]

/-- A stored row whose optional fields differ from the form defaults. -/
def londonUser : UserRow :=
  { mockUser with guid := 9, city := some "London", county := some "Essex",
                  country := some "France", role := .viewer,
                  address := some "1 Road", poste_code := some "E1" }

/-- C8 witness: an update aimed at an absent guid is the 404 failure, and an
update of the stored London row with an all-omitted form is not the 404
failure (the row is found and the overwritten user is returned). -/
theorem update_user_overwrites_witness :
    update_user [londonUser] 42 (buildUserRequestBaseModel none none none none
        none none)
      = .error ⟨404, "User with given guid not found"⟩ ∧
    ¬ (update_user [londonUser] 9 (buildUserRequestBaseModel none none none none
        none none)
      = .error ⟨404, "User with given guid not found"⟩) := by
  constructor
  · exact (update_user_overwrites [londonUser] 42
      (buildUserRequestBaseModel none none none none none none)).1 (by decide)
  · obtain ⟨u2, hu2, _⟩ :=
      (update_user_overwrites [londonUser] 9
        (buildUserRequestBaseModel none none none none none none)).2.1 londonUser
        (by decide)
    rw [hu2]
    simp

end Miq
